import Mathlib

/-
Shallow embedding of the RQ1 evaluation pipeline of this repository:
  src/evaluation/RQ1/llm_interface.py  (query_openai, parse_llm_response, evaluate_method)
  src/evaluation/RQ1/evaluator.py     (FrameworkMethodEvaluator.run_full_evaluation)
  src/evaluation/RQ1/utils.py         (calculate_method_similarity)
  src/evaluation/RQ1/config.py        (MAX_RETRIES, PROGRESS_SAVE_INTERVAL)

Modelling conventions:
  - Python strings are Lean Strings; the Python string primitives used by the
    code (strip, lower, startswith, slicing, substring membership) are
    re-implemented below on the character list, matching CPython semantics for
    the ASCII inputs the code handles.
  - json.loads is an external library call; it is modelled as an opaque
    parameter decode : String -> Except String JValue, whose error case is a
    json.JSONDecodeError with the given message, and whose ok case is the
    decoded JSON value.  A raw text such as "42" corresponds to a decode that
    returns JValue.num 42, as json.loads does in Python.
  - Python exceptions that can escape the modelled functions are the error
    case of Except PyExc.  Exception message texts follow the source but elide
    the Python quote characters; no claim depends on the message text.
  - network I/O, logging and time.sleep are side effects: sleeps and client
    calls are recorded in an explicit trace (counts of time units / calls),
    and an HTTP response is a record of status code, body text and the
    outcome of response.json().
  - timestamps (time.time(), datetime.now()) are wall-clock values no claim
    mentions; they are omitted from the embedded records.
-/

namespace RQ1

/-- Python whitespace characters recognised by str.strip (ASCII subset). -/
def pyWs (c : Char) : Bool :=
  c = ' ' || c = '\t' || c = '\n' || c = '\r' || c = '\x0b' || c = '\x0c'

/-- Python str.strip(): drop whitespace from both ends. -/
def pyStrip (s : String) : String :=
  ⟨((s.data.dropWhile pyWs).reverse.dropWhile pyWs).reverse⟩

/-- Python str.lower() (ASCII case mapping, as used by the code). -/
def pyLower (s : String) : String :=
  ⟨s.data.map Char.toLower⟩

/-- Python str.startswith(pre). -/
def pyStartsWith (s pre : String) : Bool :=
  pre.data.isPrefixOf s.data

/-- Python slice s[a:-b] for a, b natural: characters with index in [a, len-b). -/
def pySliceTrimEnd (s : String) (a b : Nat) : String :=
  ⟨(s.data.take (s.data.length - b)).drop a⟩

/-- Python slice s[:n]. -/
def pyTakeN (s : String) (n : Nat) : String :=
  ⟨s.data.take n⟩

/-- Python substring membership: key in s (for strings). -/
def strContainsSub (s key : String) : Bool :=
  (List.range (s.data.length + 1)).any (fun i => key.data.isPrefixOf (s.data.drop i))

/-- JSON values, as produced by json.loads. -/
inductive JValue where
  | null
  | bool (b : Bool)
  | num (n : Int)
  | str (s : String)
  | arr (xs : List JValue)
  | obj (kvs : List (String × JValue))

/-- Python exceptions that can escape the modelled functions. -/
inductive PyExc where
  | typeError (msg : String)
  | keyError (msg : String)
  | indexError (msg : String)
  | attributeError (msg : String)
  | jsonDecodeError (msg : String)
  | exc (msg : String)
deriving DecidableEq

/-- Python str(e) on an exception: its message. -/
def PyExc.toStr : PyExc → String
  | .typeError m => m
  | .keyError m => m
  | .indexError m => m
  | .attributeError m => m
  | .jsonDecodeError m => m
  | .exc m => m

/-- Python dict lookup d[k] (as an Option); also backs the in-operator on dicts. -/
def dlookup (k : String) : List (String × α) → Option α
  | [] => none
  | (k1, v) :: rest => if k1 = k then some v else dlookup k rest

/-- Python dict assignment d[k] = v: replace in place, else append. -/
def dictSet : List (String × α) → String → α → List (String × α)
  | [], k, v => [(k, v)]
  | (k1, v1) :: rest, k, v =>
    if k1 = k then (k, v) :: rest else (k1, v1) :: dictSet rest k v

/-- Python list membership key in xs for a string key: equality with elements
(a string compares equal only to an equal string). -/
def jarrHasStr (key : String) : List JValue → Bool
  | [] => false
  | .str s :: rest => s == key || jarrHasStr key rest
  | _ :: rest => jarrHasStr key rest

/-- Python membership key in v.  On dicts it is key membership, on strings
substring membership, on lists element membership; on numbers, booleans and
None it raises TypeError (argument of type ... is not iterable). -/
def jmem (key : String) : JValue → Except PyExc Bool
  | .obj kvs => .ok (dlookup key kvs).isSome
  | .str s => .ok (strContainsSub s key)
  | .arr xs => .ok (jarrHasStr key xs)
  | .num _ => .error (.typeError "argument of type int is not iterable")
  | .bool _ => .error (.typeError "argument of type bool is not iterable")
  | .null => .error (.typeError "argument of type NoneType is not iterable")

/-- Python indexing v[key] with a string key.  Dict lookup on dicts (KeyError
when absent); TypeError on every other JSON value. -/
def jindex : JValue → String → Except PyExc JValue
  | .obj kvs, key =>
    match dlookup key kvs with
    | some v => .ok v
    | none => .error (.keyError key)
  | .str _, _ => .error (.typeError "string indices must be integers")
  | .arr _, _ => .error (.typeError "list indices must be integers")
  | .num _, _ => .error (.typeError "int object is not subscriptable")
  | .bool _, _ => .error (.typeError "bool object is not subscriptable")
  | .null, _ => .error (.typeError "NoneType object is not subscriptable")

/-- Python indexing v[i] with a natural index, as used on response
json choices lists. -/
def jindexNat : JValue → Nat → Except PyExc JValue
  | .arr xs, i =>
    match xs.get? i with
    | some v => .ok v
    | none => .error (.indexError "list index out of range")
  | .str s, i =>
    match s.data.get? i with
    | some c => .ok (.str ⟨[c]⟩)
    | none => .error (.indexError "string index out of range")
  | .obj _, _ => .error (.keyError "0")
  | _, _ => .error (.typeError "object is not subscriptable")

/-- Cleaning step of parse_llm_response: strip, then remove a fenced code
block marker (with or without the json language tag), then strip again. -/
def cleanResponse (raw : String) : String :=
  let r := pyStrip raw
  if pyStartsWith r "```json" then pyStrip (pySliceTrimEnd r 7 3)
  else if pyStartsWith r "```" then pyStrip (pySliceTrimEnd r 3 3)
  else r

/-- The ParseError-tagged record built by parse_llm_response when json.loads
fails: purpose_behavior carries a 200-character excerpt of the cleaned text,
and the parse_error key carries str(e). -/
def parseErrorRecord (cleaned emsg : String) : JValue :=
  .obj [("purpose_behavior", .str ("PARSE_ERROR: " ++ pyTakeN cleaned 200)),
        ("return_values", .obj [("type", .str "PARSE_ERROR"),
                                ("description", .str "Failed to parse JSON response")]),
        ("parse_error", .str emsg)]

/-- The ValidationError-tagged record built by parse_llm_response when a
required field is missing: the validation_error key carries str(e). -/
def validationErrorRecord (emsg : String) : JValue :=
  .obj [("purpose_behavior", .str ("VALIDATION_ERROR: " ++ emsg)),
        ("return_values", .obj [("type", .str "VALIDATION_ERROR"),
                                ("description", .str "Response missing required fields")]),
        ("validation_error", .str emsg)]

/-- llm_interface.parse_llm_response.  Cleans the text, decodes it, validates
the four required fields.  A decode failure is caught (json.JSONDecodeError
handler) and returns the ParseError record; a missing field raises ValueError,
caught by the ValueError handler, returning the ValidationError record.  The
membership and indexing checks follow Python semantics, so on a decoded value
that is a number, boolean or None the in-operator raises TypeError, which no
handler catches: that exception escapes as the .error case. -/
def parse_llm_response (decode : String → Except String JValue) (raw_response : String) :
    Except PyExc JValue :=
  let cleaned := cleanResponse raw_response
  match decode cleaned with
  | .error e => .ok (parseErrorRecord cleaned e)
  | .ok parsed =>
    match jmem "purpose_behavior" parsed with
    | .error ex => .error ex
    | .ok false => .ok (validationErrorRecord "Missing purpose_behavior field")
    | .ok true =>
      match jmem "return_values" parsed with
      | .error ex => .error ex
      | .ok false => .ok (validationErrorRecord "Missing return_values field")
      | .ok true =>
        match jindex parsed "return_values" with
        | .error ex => .error ex
        | .ok rv =>
          match jmem "type" rv with
          | .error ex => .error ex
          | .ok false => .ok (validationErrorRecord "Missing type in return_values")
          | .ok true =>
            match jmem "description" rv with
            | .error ex => .error ex
            | .ok false => .ok (validationErrorRecord "Missing description in return_values")
            | .ok true => .ok parsed

/-- An HTTP response as seen by query_openai: status code, body text, and the
outcome of response.json() (its error case is the JSONDecodeError that
requests would raise on an undecodable body). -/
structure HttpResponse where
  status_code : Nat
  text : String
  jsonBody : Except String JValue

/-- llm_interface.query_openai, after the POST returned a response.  Status
exactly 200 extracts choices[0].message.content from the decoded body;
status exactly 429 raises Exception("Rate limit exceeded"); every other
status raises Exception carrying the status code and body text. -/
def query_openai (resp : HttpResponse) : Except PyExc JValue :=
  if resp.status_code = 200 then
    match resp.jsonBody with
    | .error e => .error (.jsonDecodeError e)
    | .ok j =>
      match jindex j "choices" with
      | .error ex => .error ex
      | .ok cs =>
        match jindexNat cs 0 with
        | .error ex => .error ex
        | .ok c0 =>
          match jindex c0 "message" with
          | .error ex => .error ex
          | .ok m => jindex m "content"
  else if resp.status_code = 429 then
    .error (.exc "Rate limit exceeded")
  else
    .error (.exc ("OpenAI API error: " ++ toString resp.status_code ++ " - " ++ resp.text))

/-- The dict returned by evaluate_method: the success shape has raw and parsed
responses and no error; the failure shape has an error and no responses.
The timestamp field (wall clock) is omitted. -/
structure AttemptResult where
  llm : String
  method_signature : String
  raw_response : Option String
  parsed_response : Option JValue
  error : Option String
  success : Bool
  attempt : Nat

/-- The success-shaped evaluate_method return value for a given attempt. -/
def okRes (llm sig raw : String) (parsed : JValue) (attemptN : Nat) : AttemptResult :=
  { llm := llm, method_signature := sig, raw_response := some raw,
    parsed_response := some parsed, error := none, success := true, attempt := attemptN }

/-- The failure-shaped evaluate_method return value for a given attempt. -/
def failRes (llm sig err : String) (attemptN : Nat) : AttemptResult :=
  { llm := llm, method_signature := sig, raw_response := none,
    parsed_response := none, error := some err, success := false, attempt := attemptN }

/-- One iteration body of the retry loop up to its return points: query the
client (its error case is any exception the client raised), then parse the
raw text.  Both a client exception and a TypeError escaping
parse_llm_response are caught by the same except clause of evaluate_method,
recorded as str(e); this function folds the two sources into one Except. -/
def attemptOutcome (query : Nat → Except String String)
    (decode : String → Except String JValue) (i : Nat) :
    Except String (String × JValue) :=
  match query i with
  | .error e => .error e
  | .ok raw =>
    match parse_llm_response decode raw with
    | .error ex => .error (PyExc.toStr ex)
    | .ok parsed => .ok (raw, parsed)

/-- Outcome of the retry for-loop: the returned dict if a return statement
ran (none when the loop fell through), total backoff time units slept, and
number of client calls made. -/
structure LoopOut where
  result : Option AttemptResult
  backoff : Nat
  calls : Nat

/-- The for attempt in range(MAX_RETRIES) loop of evaluate_method, started at
a given attempt index with the remaining number of iterations as fuel.
Each iteration sleeps 2 ^ attempt backoff units when attempt > 0, runs the
attempt body, and on an exception either continues (attempt < k - 1) or
returns the failure dict; on success it returns the success dict. -/
def retryLoop (llm sig : String) (query : Nat → Except String String)
    (decode : String → Except String JValue) (k : Nat) :
    Nat → Nat → LoopOut
  | _, 0 => { result := none, backoff := 0, calls := 0 }
  | attempt, fuel + 1 =>
    let backoff := if 0 < attempt then 2 ^ attempt else 0
    match attemptOutcome query decode attempt with
    | .ok (raw, parsed) =>
      { result := some (okRes llm sig raw parsed (attempt + 1)),
        backoff := backoff, calls := 1 }
    | .error e =>
      if attempt < k - 1 then
        let rest := retryLoop llm sig query decode k (attempt + 1) fuel
        { result := rest.result, backoff := backoff + rest.backoff,
          calls := 1 + rest.calls }
      else
        { result := some (failRes llm sig e (attempt + 1)),
          backoff := backoff, calls := 1 }

/-- Trace of one evaluate_method call: its return value or escaping
exception, the backoff slept, the client calls made, and whether the
post-loop rate-limit sleep ran. -/
structure ExecTrace where
  result : Except String AttemptResult
  backoffSlept : Nat
  calls : Nat
  rateLimitSlept : Bool

/-- llm_interface.evaluate_method for one (method, backend) pair.  The prompt
construction and the openai/ollama dispatch are folded into the query
parameter; maxRetries is the MAX_RETRIES configuration value.  Every loop
iteration ends in a return statement, so the statements after the loop
(time.sleep(rate_limit_delay) and the return of the undefined name result)
run only when the loop falls through, i.e. when maxRetries = 0; in that case
the rate-limit sleep runs and a NameError escapes. -/
def evaluate_method (llm sig : String) (query : Nat → Except String String)
    (decode : String → Except String JValue) (maxRetries : Nat) : ExecTrace :=
  let lo := retryLoop llm sig query decode maxRetries 0 maxRetries
  { result :=
      match lo.result with
      | some r => .ok r
      | none => .error "NameError: name result is not defined",
    backoffSlept := lo.backoff,
    calls := lo.calls,
    rateLimitSlept := lo.result.isNone }

/-- The similarity dict returned by utils.calculate_method_similarity;
similarity values are the opaque oracle outputs (rationals in the model). -/
structure SimilarityScore where
  purpose_similarity : Rat
  return_type_match : Bool
  return_desc_similarity : Rat
  overall_similarity : Rat
  success : Bool
  error : Option String

/-- The zero-valued failure score built by the except handler of
calculate_method_similarity. -/
def zeroScore (emsg : String) : SimilarityScore :=
  { purpose_similarity := 0, return_type_match := false,
    return_desc_similarity := 0, overall_similarity := 0,
    success := false, error := some emsg }

/-- SimilarityCalculator.calculate_similarity: the embedding oracle.  It
catches every exception internally and returns 0.0, so non-string inputs
take the caught-exception path and yield 0; string inputs yield the opaque
oracle value. -/
def simOn (sim : String → String → Rat) : JValue → JValue → Rat
  | .str a, .str b => sim a b
  | _, _ => 0

/-- Python v.lower().strip() on an extracted JSON value: AttributeError when
the value is not a string. -/
def pyLowerStrip : JValue → Except PyExc String
  | .str s => .ok (pyStrip (pyLower s))
  | _ => .error (.attributeError "object has no attribute lower")

/-- Python string concatenation of extracted JSON values: TypeError when any
part is not a string. -/
def pyConcatStrs : List JValue → Except PyExc String
  | [] => .ok ""
  | .str s :: rest =>
    match pyConcatStrs rest with
    | .ok t => .ok (s ++ t)
    | .error ex => .error ex
  | _ :: _ => .error (.typeError "can only concatenate str to str")

/-- Body of the try block of calculate_method_similarity, in source statement
order: purpose similarity, return-type exact match after lower().strip(),
return-description similarity, then the combined overall similarity. -/
def calcSimAux (sim : String → String → Rat) (ground_truth llm_response : JValue) :
    Except PyExc SimilarityScore := do
  let gp ← jindex ground_truth "purpose_behavior"
  let lp ← jindex llm_response "purpose_behavior"
  let purpose_sim := simOn sim gp lp
  let gtv ← jindex ground_truth "return_values"
  let gty ← jindex gtv "type"
  let gt_type ← pyLowerStrip gty
  let ltv ← jindex llm_response "return_values"
  let lty ← jindex ltv "type"
  let llm_type ← pyLowerStrip lty
  let type_match := gt_type == llm_type
  let gd ← jindex gtv "description"
  let ld ← jindex ltv "description"
  let return_desc_sim := simOn sim gd ld
  let gt_combined ← pyConcatStrs [gp, .str " Returns ", gty, .str ": ", gd]
  let llm_combined ← pyConcatStrs [lp, .str " Returns ", lty, .str ": ", ld]
  let overall := simOn sim (.str gt_combined) (.str llm_combined)
  pure { purpose_similarity := purpose_sim, return_type_match := type_match,
         return_desc_similarity := return_desc_sim, overall_similarity := overall,
         success := true, error := none }

/-- utils.calculate_method_similarity: the try body, with every exception
caught and turned into the zero-valued failure score carrying str(e). -/
def calculate_method_similarity (sim : String → String → Rat)
    (ground_truth llm_response : JValue) : SimilarityScore :=
  match calcSimAux sim ground_truth llm_response with
  | .ok s => s
  | .error ex => zeroScore ex.toStr

/-- A record of the shape the data model gives to GroundTruthRecord and to a
successfully parsed response: the four required fields, all strings. -/
structure MRecord where
  purpose_behavior : String
  rtype : String
  rdesc : String

/-- The JSON dict carrying an MRecord, as stored in the ground-truth file and
as required of a validated response. -/
def MRecord.toJ (r : MRecord) : JValue :=
  .obj [("purpose_behavior", .str r.purpose_behavior),
        ("return_values", .obj [("type", .str r.rtype),
                                ("description", .str r.rdesc)])]

/-- One catalogue entry produced by utils.get_method_list: the unique
signature, its category, and the ground-truth record dict. -/
structure Entry where
  signature : String
  category : String
  data : JValue

/-- A per-backend response as stored by run_full_evaluation: either the dict
evaluate_method returned, or the small fallback dict written by the
per-backend except handler. -/
inductive StoredResponse where
  | attempt (r : AttemptResult)
  | excFallback (error : String) (llm : String)

/-- One ResultSet entry (the value of self.results[signature]); the
evaluation_timestamp field (wall clock) is omitted. -/
structure MethodEvaluation where
  category : String
  ground_truth : JValue
  llm_responses : List (String × StoredResponse)
  similarities : List (String × SimilarityScore)

/-- Orchestrator state during the catalogue loop: the ResultSet dict, the
log of (signature, backend) pairs for which evaluate_method was invoked, the
number of intermediate checkpoint writes, and the number of processed
(non-skipped) entries. -/
structure OrchState where
  results : List (String × MethodEvaluation)
  queried : List (String × String)
  checkpoints : Nat
  processed : Nat

/-- Per-backend step of the orchestrator: store the evaluate_method outcome
under the backend name (the behavior error case is an exception escaping
evaluate_method, handled by the except clause that stores the fallback
dict); on success=true, look up parsed_response (a missing key would raise
KeyError, caught by the same except clause, overwriting the stored response)
and store the similarity score. -/
def processBackend (scorer : String → String → Rat) (gtData : JValue)
    (ev : MethodEvaluation) (name : String) (beh : Except String AttemptResult) :
    MethodEvaluation :=
  match beh with
  | .error e =>
    { ev with llm_responses := dictSet ev.llm_responses name (.excFallback e name) }
  | .ok ar =>
    let ev1 := { ev with llm_responses := dictSet ev.llm_responses name (.attempt ar) }
    if ar.success then
      match ar.parsed_response with
      | some p =>
        { ev1 with similarities :=
            dictSet ev1.similarities name (calculate_method_similarity scorer gtData p) }
      | none =>
        { ev1 with llm_responses :=
            dictSet ev1.llm_responses name (.excFallback "KeyError: parsed_response" name) }
    else ev1

/-- One iteration of the catalogue loop of run_full_evaluation: skip (via
continue, which also bypasses the checkpoint test) when the signature is
already in the ResultSet; otherwise build the new entry by evaluating every
backend in configuration order, store it, and checkpoint when the 1-based
catalogue position is a multiple of the save interval.  The source
initialises results[signature] before the backend loop and mutates it in
place; no read interleaves, so building the entry first and storing it once
is observationally identical. -/
def processEntry (backends : List String)
    (behavior : String → String → Except String AttemptResult)
    (scorer : String → String → Rat) (N : Nat) (idx : Nat)
    (st : OrchState) (e : Entry) : OrchState :=
  match dlookup e.signature st.results with
  | some _ => st
  | none =>
    let ev := backends.foldl
      (fun acc name => processBackend scorer e.data acc name (behavior name e.signature))
      { category := e.category, ground_truth := e.data,
        llm_responses := [], similarities := [] }
    let st1 : OrchState :=
      { results := dictSet st.results e.signature ev,
        queried := st.queried ++ backends.map (fun name => (e.signature, name)),
        checkpoints := st.checkpoints,
        processed := st.processed + 1 }
    if (idx + 1) % N = 0 then { st1 with checkpoints := st1.checkpoints + 1 } else st1

/-- The catalogue loop of run_full_evaluation. -/
def runEval (backends : List String)
    (behavior : String → String → Except String AttemptResult)
    (scorer : String → String → Rat) (N : Nat) :
    List Entry → Nat → OrchState → OrchState
  | [], _, st => st
  | e :: rest, idx, st =>
    runEval backends behavior scorer N rest (idx + 1)
      (processEntry backends behavior scorer N idx st e)

/-- Resume handling at the top of run_full_evaluation: no resume path, or the
outcome of load_ground_truth(resume_from).  A load failure is caught, only a
warning is logged, and self.results keeps its initial empty value. -/
def resolveResume : Option (Except String (List (String × MethodEvaluation))) →
    List (String × MethodEvaluation)
  | none => []
  | some (.ok r) => r
  | some (.error _) => []

/-- Outcome of one run_full_evaluation call: final ResultSet, query log,
intermediate checkpoint count, processed-entry count, and the final
save (which runs unconditionally after the loop). -/
structure RunResult where
  results : List (String × MethodEvaluation)
  queried : List (String × String)
  checkpoints : Nat
  processed : Nat
  finalWrites : Nat

/-- evaluator.run_full_evaluation: resolve the resume file, run the catalogue
loop from an empty query log, then perform the final result write. -/
def run_full_evaluation (backends : List String)
    (behavior : String → String → Except String AttemptResult)
    (scorer : String → String → Rat) (N : Nat) (catalogue : List Entry)
    (resume : Option (Except String (List (String × MethodEvaluation)))) : RunResult :=
  let st := runEval backends behavior scorer N catalogue 0
    { results := resolveResume resume, queried := [], checkpoints := 0, processed := 0 }
  { results := st.results, queried := st.queried, checkpoints := st.checkpoints,
    processed := st.processed, finalWrites := 1 }

/-- The PROGRESS_SAVE_INTERVAL configuration value. -/
def PROGRESS_SAVE_INTERVAL : Nat := 10

/-- The MAX_RETRIES configuration value. -/
def MAX_RETRIES : Nat := 3

/-- A response record is error-tagged when the parser marked it with a
parse_error or validation_error key. -/
def isErrorTagged (v : JValue) : Bool :=
  match v with
  | .obj kvs => (dlookup "parse_error" kvs).isSome || (dlookup "validation_error" kvs).isSome
  | _ => false

/-- C1: the claim asserts parse_llm_response is total, including on inputs
that decode to non-object JSON values; on the raw text 42, which json.loads
decodes to the integer 42, the membership check purpose_behavior not in
parsed raises a TypeError that no handler catches, so the exception escapes
the parser instead of a tagged ParsedResponse being returned. -/
theorem c1_parse_typeerror_escapes :
    parse_llm_response (fun _ => .ok (JValue.num 42)) "42"
      = .error (PyExc.typeError "argument of type int is not iterable") := rfl

/-- C10: when the resume file cannot be read or decoded, the load failure is
caught with only a warning, self.results keeps its initial empty value, and
the run proceeds exactly as a fresh run with no resume path. -/
theorem c10_invalid_resume_is_fresh_run (backends : List String)
    (behavior : String → String → Except String AttemptResult)
    (scorer : String → String → Rat) (N : Nat) (catalogue : List Entry)
    (emsg : String) :
    run_full_evaluation backends behavior scorer N catalogue (some (.error emsg))
      = run_full_evaluation backends behavior scorer N catalogue none := rfl

/-- C7 counterexample: the claim classifies every non-2xx status other than
too-many-requests as BackendError and every successful (2xx) status as
returning the first generated message text; but query_openai tests the
status code for equality with 200, so a 201 response with a well-formed body
raises the BackendError-shaped Exception instead of returning the text. -/
theorem c7_counterexample :
    query_openai
        { status_code := 201, text := "created",
          jsonBody := .ok (.obj [("choices",
            .arr [.obj [("message", .obj [("content", .str "hello")])]])]) }
      = .error (.exc "OpenAI API error: 201 - created")
    ∧ query_openai
        { status_code := 201, text := "created",
          jsonBody := .ok (.obj [("choices",
            .arr [.obj [("message", .obj [("content", .str "hello")])]])]) }
      ≠ .ok (.str "hello") :=
  ⟨rfl, fun h => Except.noConfusion h⟩

/-- C7 amended: status exactly 200 returns choices[0].message.content of the
decoded body; status exactly 429 raises the rate-limit Exception; every
other status (including non-200 2xx codes) raises the Exception carrying the
status code and the response body text. -/
theorem c7_hosted_backend_classification (resp : HttpResponse) :
    (resp.status_code = 200 →
      ∀ j c0 cs m t, resp.jsonBody = .ok j →
        jindex j "choices" = .ok (.arr (c0 :: cs)) →
        jindex c0 "message" = .ok m →
        jindex m "content" = .ok t →
        query_openai resp = .ok t)
    ∧ (resp.status_code = 429 →
        query_openai resp = .error (.exc "Rate limit exceeded"))
    ∧ (resp.status_code ≠ 200 → resp.status_code ≠ 429 →
        query_openai resp = .error (.exc ("OpenAI API error: "
          ++ toString resp.status_code ++ " - " ++ resp.text))) := by
  refine ⟨?_, ?_, ?_⟩
  · intro h200 j c0 cs m t hj hcs hm ht
    simp [query_openai, h200, hj, hcs, hm, ht, jindexNat]
  · intro h429
    simp [query_openai, h429]
  · intro h200 h429
    simp [query_openai, h200, h429]

/-- C7 witness: a 200 response with a well-formed body returns the message
text; a 429 response raises the rate-limit Exception; a 404 response raises
the Exception carrying status and body. -/
theorem c7_hosted_backend_classification_witness :
    query_openai
        { status_code := 200, text := "",
          jsonBody := .ok (.obj [("choices",
            .arr [.obj [("message", .obj [("content", .str "hi")])]])]) }
      = .ok (.str "hi")
    ∧ query_openai { status_code := 429, text := "slow down", jsonBody := .ok .null }
      = .error (.exc "Rate limit exceeded")
    ∧ query_openai { status_code := 404, text := "not found", jsonBody := .ok .null }
      = .error (.exc "OpenAI API error: 404 - not found") := by
  refine ⟨?_, ?_, ?_⟩
  · exact (c7_hosted_backend_classification _).1 rfl
      (.obj [("choices", .arr [.obj [("message", .obj [("content", .str "hi")])]])])
      (.obj [("message", .obj [("content", .str "hi")])]) []
      (.obj [("content", .str "hi")]) (.str "hi") rfl rfl rfl rfl
  · exact (c7_hosted_backend_classification _).2.1 rfl
  · exact ((c7_hosted_backend_classification _).2.2 (by decide) (by decide)).trans rfl

/-- C8: for ground-truth records and parsed responses of the ParsedResponse
shape (all four fields strings), return_type_match is true exactly when the
two type strings agree after lower() and strip(); in particular type int
matches int and Int but not Integer, for every similarity oracle. -/
theorem c8_return_type_exact_match (sim : String → String → Rat) (g l : MRecord) :
    ((calculate_method_similarity sim g.toJ l.toJ).return_type_match
      = (pyStrip (pyLower g.rtype) == pyStrip (pyLower l.rtype)))
    ∧ (calculate_method_similarity sim
        (MRecord.toJ ⟨"parses int input", "int", "the parsed value"⟩)
        (MRecord.toJ ⟨"parses the input", "int", "parsed value"⟩)).return_type_match = true
    ∧ (calculate_method_similarity sim
        (MRecord.toJ ⟨"parses int input", "int", "the parsed value"⟩)
        (MRecord.toJ ⟨"parses the input", "Int", "parsed value"⟩)).return_type_match = true
    ∧ (calculate_method_similarity sim
        (MRecord.toJ ⟨"parses int input", "int", "the parsed value"⟩)
        (MRecord.toJ ⟨"parses the input", "Integer", "parsed value"⟩)).return_type_match
      = false := by
  obtain ⟨gp, gt, gd⟩ := g
  obtain ⟨lp, lt, ld⟩ := l
  exact ⟨rfl, rfl, rfl, rfl⟩

theorem retryLoop_calls_le (llm sig : String) (query : Nat → Except String String)
    (decode : String → Except String JValue) (k : Nat) :
    ∀ fuel attempt, (retryLoop llm sig query decode k attempt fuel).calls ≤ fuel := by
  intro fuel
  induction fuel with
  | zero => intro attempt; simp [retryLoop]
  | succ f ih =>
    intro attempt
    cases h : attemptOutcome query decode attempt with
    | ok v =>
      obtain ⟨raw, parsed⟩ := v
      simp only [retryLoop, h]
      omega
    | error e =>
      by_cases hlt : attempt < k - 1
      · have hr := ih (attempt + 1)
        simp only [retryLoop, h, if_pos hlt]
        omega
      · simp only [retryLoop, h, if_neg hlt]
        omega

theorem retryLoop_all_fail (llm sig : String) (query : Nat → Except String String)
    (decode : String → Except String JValue) (k : Nat) (e : Nat → String) :
    ∀ fuel attempt, attempt + fuel = k → 0 < fuel →
    (∀ i, attempt ≤ i → i < k → attemptOutcome query decode i = .error (e i)) →
    (retryLoop llm sig query decode k attempt fuel).result
        = some (failRes llm sig (e (k - 1)) k)
    ∧ (retryLoop llm sig query decode k attempt fuel).backoff
        = Finset.sum (Finset.Ico attempt k) (fun i => if 0 < i then 2 ^ i else 0)
    ∧ (retryLoop llm sig query decode k attempt fuel).calls = fuel := by
  intro fuel
  induction fuel with
  | zero => intro attempt _ h2 _; omega
  | succ f ih =>
    intro attempt hsum _ hfail
    have hak : attempt < k := by omega
    have ha : attemptOutcome query decode attempt = .error (e attempt) :=
      hfail attempt (Nat.le_refl _) hak
    by_cases hf : f = 0
    · subst hf
      have h1 : attempt + 1 = k := by omega
      have hnot : ¬ attempt < k - 1 := by omega
      simp only [retryLoop, ha, if_neg hnot]
      refine ⟨?_, ?_, trivial⟩
      · rw [h1, show attempt = k - 1 by omega]
      · rw [← h1, Finset.sum_Ico_succ_top (Nat.le_refl attempt),
          Finset.Ico_self, Finset.sum_empty, zero_add]
    · have hlt : attempt < k - 1 := by omega
      simp only [retryLoop, ha, if_pos hlt]
      obtain ⟨ih1, ih2, ih3⟩ := ih (attempt + 1) (by omega) (by omega)
        (fun i hi1 hi2 => hfail i (by omega) hi2)
      refine ⟨ih1, ?_, ?_⟩
      · rw [ih2, Finset.sum_eq_sum_Ico_succ_bot hak]
      · rw [ih3]
        omega

theorem retryLoop_first_success (llm sig : String) (query : Nat → Except String String)
    (decode : String → Except String JValue) (k : Nat) (e : Nat → String)
    (i : Nat) (raw : String) (p : JValue) :
    ∀ fuel attempt, attempt + fuel = k → attempt ≤ i → i < k →
    (∀ j, attempt ≤ j → j < i → attemptOutcome query decode j = .error (e j)) →
    attemptOutcome query decode i = .ok (raw, p) →
    (retryLoop llm sig query decode k attempt fuel).result
        = some (okRes llm sig raw p (i + 1))
    ∧ (retryLoop llm sig query decode k attempt fuel).calls = i + 1 - attempt := by
  intro fuel
  induction fuel with
  | zero => intro attempt h1 h2 h3 _ _; omega
  | succ f ih =>
    intro attempt hsum hai hik hfail hok
    by_cases hei : attempt = i
    · subst hei
      simp only [retryLoop, hok]
      refine ⟨trivial, ?_⟩
      show 1 = attempt + 1 - attempt
      omega
    · have hlt : attempt < i := by omega
      have ha : attemptOutcome query decode attempt = .error (e attempt) :=
        hfail attempt (Nat.le_refl _) hlt
      have hklt : attempt < k - 1 := by omega
      simp only [retryLoop, ha, if_pos hklt]
      obtain ⟨ih1, ih2⟩ := ih (attempt + 1) (by omega) (by omega) hik
        (fun j hj1 hj2 => hfail j (by omega) hj2) hok
      refine ⟨ih1, ?_⟩
      rw [ih2]
      omega

theorem retryLoop_result_isSome (llm sig : String) (query : Nat → Except String String)
    (decode : String → Except String JValue) (k : Nat) :
    ∀ fuel attempt, attempt + fuel = k → 0 < fuel →
    (retryLoop llm sig query decode k attempt fuel).result.isSome = true := by
  intro fuel
  induction fuel with
  | zero => intro attempt _ h; omega
  | succ f ih =>
    intro attempt hsum _
    cases h : attemptOutcome query decode attempt with
    | ok v =>
      obtain ⟨raw, p⟩ := v
      simp [retryLoop, h]
    | error e =>
      by_cases hlt : attempt < k - 1
      · have hf := ih (attempt + 1) (by omega) (by omega)
        simp [retryLoop, h, hlt, hf]
      · simp [retryLoop, h, hlt]

theorem sum_backoff_from_zero (k : Nat) (hk : 1 ≤ k) :
    Finset.sum (Finset.Ico 0 k) (fun i => if 0 < i then 2 ^ i else 0)
      = Finset.sum (Finset.Ico 1 k) (fun i => 2 ^ i) := by
  rw [Finset.sum_eq_sum_Ico_succ_bot (by omega : 0 < k)]
  simp only [Nat.lt_irrefl, if_false, zero_add]
  refine Finset.sum_congr rfl (fun i hi => ?_)
  rw [Finset.mem_Ico] at hi
  rw [if_pos (by omega : 0 < i)]

/-- C3: with max_attempts = k (k at least 1), evaluate_method calls the
backend client at most k times; when every attempt fails (its body raises),
the returned dict has success = false, carries the last attempt error, has
attempt_count = k, and the strictly positive backoff slept across the
attempts is exactly the sum of 2 ^ i for i from 1 to k - 1; when the first
completed attempt has 0-based index i, the function returns immediately with
success = true, attempt_count = i + 1, and exactly i + 1 client calls. -/
theorem c3_retry_bound (llm sig : String) (query : Nat → Except String String)
    (decode : String → Except String JValue) (k : Nat) (hk : 1 ≤ k) :
    ((evaluate_method llm sig query decode k).calls ≤ k)
    ∧ (∀ e : Nat → String,
        (∀ i, i < k → attemptOutcome query decode i = .error (e i)) →
        (evaluate_method llm sig query decode k).result
            = .ok (failRes llm sig (e (k - 1)) k)
        ∧ (evaluate_method llm sig query decode k).backoffSlept
            = Finset.sum (Finset.Ico 1 k) (fun i => 2 ^ i))
    ∧ (∀ i raw p (e : Nat → String), i < k →
        (∀ j, j < i → attemptOutcome query decode j = .error (e j)) →
        attemptOutcome query decode i = .ok (raw, p) →
        (evaluate_method llm sig query decode k).result
            = .ok (okRes llm sig raw p (i + 1))
        ∧ (evaluate_method llm sig query decode k).calls = i + 1) := by
  refine ⟨retryLoop_calls_le llm sig query decode k k 0, ?_, ?_⟩
  · intro e hfail
    obtain ⟨h1, h2, h3⟩ := retryLoop_all_fail llm sig query decode k e k 0
      (by omega) (by omega) (fun i _ hi => hfail i hi)
    constructor
    · show (match (retryLoop llm sig query decode k 0 k).result with
        | some r => Except.ok r
        | none => Except.error "NameError: name result is not defined")
          = Except.ok (failRes llm sig (e (k - 1)) k)
      rw [h1]
    · show (retryLoop llm sig query decode k 0 k).backoff = _
      rw [h2, sum_backoff_from_zero k hk]
  · intro i raw p e hik hfail hok
    obtain ⟨h1, h2⟩ := retryLoop_first_success llm sig query decode k e i raw p k 0
      (by omega) (by omega) hik (fun j _ hj => hfail j hj) hok
    constructor
    · show (match (retryLoop llm sig query decode k 0 k).result with
        | some r => Except.ok r
        | none => Except.error "NameError: name result is not defined")
          = Except.ok (okRes llm sig raw p (i + 1))
      rw [h1]
    · show (retryLoop llm sig query decode k 0 k).calls = i + 1
      rw [h2]
      omega

/-- C3 witness: three attempts all failing with error boom give a failure
dict with the last error, attempt_count 3, and backoff 2 ^ 1 + 2 ^ 2. -/
theorem c3_retry_bound_witness :
    (evaluate_method "gpt4o" "m" (fun _ => .error "boom") (fun _ => .error "bad") 3).calls ≤ 3
    ∧ (evaluate_method "gpt4o" "m" (fun _ => .error "boom") (fun _ => .error "bad") 3).result
        = .ok (failRes "gpt4o" "m" "boom" 3)
    ∧ (evaluate_method "gpt4o" "m" (fun _ => .error "boom") (fun _ => .error "bad") 3).backoffSlept
        = Finset.sum (Finset.Ico 1 3) (fun i => 2 ^ i) := by
  have h := c3_retry_bound "gpt4o" "m" (fun _ => .error "boom") (fun _ => .error "bad") 3
    (by omega)
  exact ⟨h.1, (h.2.1 (fun _ => "boom") (fun i _ => rfl)).1,
    (h.2.1 (fun _ => "boom") (fun i _ => rfl)).2⟩

/-- C4: the claim asserts the rate-limit delay is slept after every logical
request; but every iteration of the retry loop ends in a return statement,
so for every max_attempts of at least 1 (the configured MAX_RETRIES is 3)
the time.sleep(rate_limit_delay) after the loop is never executed, whatever
the backends behavior or outcome. -/
theorem c4_rate_limit_sleep_never_runs (llm sig : String)
    (query : Nat → Except String String) (decode : String → Except String JValue)
    (k : Nat) (hk : 1 ≤ k) :
    (evaluate_method llm sig query decode k).rateLimitSlept = false := by
  have h := retryLoop_result_isSome llm sig query decode k k 0 (by omega) (by omega)
  show (retryLoop llm sig query decode k 0 k).result.isNone = false
  cases hr : (retryLoop llm sig query decode k 0 k).result with
  | some r => rfl
  | none => rw [hr] at h; exact absurd h (by simp)

/-- C4 witness: a request whose first attempt succeeds, with the configured
MAX_RETRIES of 3, never reaches the rate-limit sleep. -/
theorem c4_rate_limit_sleep_never_runs_witness :
    (evaluate_method "gpt4o" "m" (fun _ => .ok "x") (fun _ => .error "bad") 3).rateLimitSlept
      = false :=
  c4_rate_limit_sleep_never_runs "gpt4o" "m" (fun _ => .ok "x") (fun _ => .error "bad") 3
    (by omega)

/-- C9: when the first completed attempt returns raw text whose parse yields
an error-tagged record (ParseError or ValidationError), evaluate_method
still returns success = true with that tagged record as parsed_response, and
the orchestrator, seeing success = true, invokes the similarity scorer on
the tagged placeholder record and stores the resulting score under the
backend name. -/
theorem c9_success_records_backend_answered
    (llm sig cat : String) (gtData : JValue) (query : Nat → Except String String)
    (decode : String → Except String JValue) (scorer : String → String → Rat)
    (N k i : Nat) (raw : String) (tagged : JValue) (e : Nat → String)
    (hik : i < k)
    (hfail : ∀ j, j < i → attemptOutcome query decode j = .error (e j))
    (hq : query i = .ok raw)
    (hp : parse_llm_response decode raw = .ok tagged)
    (_htag : isErrorTagged tagged = true) :
    (evaluate_method llm sig query decode k).result
        = .ok (okRes llm sig raw tagged (i + 1))
    ∧ dlookup sig (run_full_evaluation [llm]
          (fun _ _ => .ok (okRes llm sig raw tagged (i + 1))) scorer N
          [⟨sig, cat, gtData⟩] none).results
        = some { category := cat, ground_truth := gtData,
                 llm_responses := [(llm, .attempt (okRes llm sig raw tagged (i + 1)))],
                 similarities := [(llm, calculate_method_similarity scorer gtData tagged)] } := by
  have hok : attemptOutcome query decode i = .ok (raw, tagged) := by
    simp [attemptOutcome, hq, hp]
  constructor
  · have h := retryLoop_first_success llm sig query decode k e i raw tagged k 0
      (by omega) (by omega) hik (fun j _ hj => hfail j hj) hok
    show (match (retryLoop llm sig query decode k 0 k).result with
      | some r => Except.ok r
      | none => Except.error "NameError: name result is not defined")
        = Except.ok (okRes llm sig raw tagged (i + 1))
    rw [h.1]
  · simp [run_full_evaluation, runEval, processEntry, processBackend, resolveResume,
      dlookup, dictSet, okRes, List.foldl_cons, List.foldl_nil, apply_ite, ite_self]

/-- C9 witness: a backend answering text that is not JSON on the first
attempt yields success = true with the ParseError placeholder record, and
the one-entry orchestrator run stores the similarity score computed on that
placeholder. -/
theorem c9_success_records_backend_answered_witness :
    (evaluate_method "deepseek" "m1" (fun _ => .ok "oops")
        (fun _ => .error "Expecting value") 3).result
      = .ok (okRes "deepseek" "m1" "oops" (parseErrorRecord "oops" "Expecting value") 1)
    ∧ dlookup "m1" (run_full_evaluation ["deepseek"]
        (fun _ _ => .ok (okRes "deepseek" "m1" "oops"
          (parseErrorRecord "oops" "Expecting value") 1))
        (fun _ _ => 0) 10 [⟨"m1", "c", JValue.null⟩] none).results
      = some { category := "c", ground_truth := JValue.null,
               llm_responses := [("deepseek", .attempt (okRes "deepseek" "m1" "oops"
                 (parseErrorRecord "oops" "Expecting value") 1))],
               similarities := [("deepseek", calculate_method_similarity (fun _ _ => 0)
                 JValue.null (parseErrorRecord "oops" "Expecting value"))] } :=
  c9_success_records_backend_answered "deepseek" "m1" "c" JValue.null
    (fun _ => .ok "oops") (fun _ => .error "Expecting value") (fun _ _ => 0)
    10 3 0 "oops" (parseErrorRecord "oops" "Expecting value") (fun _ => "")
    (by omega) (fun j hj => absurd hj (by omega)) rfl rfl rfl

theorem dlookup_dictSet (l : List (String × α)) (k k' : String) (v : α) :
    dlookup k' (dictSet l k v) = if k = k' then some v else dlookup k' l := by
  induction l with
  | nil => simp [dictSet, dlookup]
  | cons a rest ih =>
    obtain ⟨k1, v1⟩ := a
    by_cases h1 : k1 = k
    · subst h1
      by_cases h2 : k1 = k'
      · simp [dictSet, dlookup, h2]
      · simp [dictSet, dlookup, h2]
    · by_cases h2 : k1 = k'
      · subst h2
        have h3 : ¬ k = k1 := fun h => h1 h.symm
        simp [dictSet, dlookup, h1, h3]
      · simp [dictSet, dlookup, h1, h2, ih]

theorem processEntry_preserves (backends : List String)
    (behavior : String → String → Except String AttemptResult)
    (scorer : String → String → Rat) (N idx : Nat) (st : OrchState) (e : Entry)
    (s : String) (ev : MethodEvaluation)
    (h : dlookup s st.results = some ev) :
    dlookup s (processEntry backends behavior scorer N idx st e).results = some ev := by
  cases hl : dlookup e.signature st.results with
  | some ev1 => simp only [processEntry, hl]; exact h
  | none =>
    have hne : e.signature ≠ s := by
      intro hx
      rw [hx, h] at hl
      exact Option.noConfusion hl
    simp only [processEntry, hl]
    by_cases hc : (idx + 1) % N = 0
    · simp only [if_pos hc]
      rw [dlookup_dictSet, if_neg hne]
      exact h
    · simp only [if_neg hc]
      rw [dlookup_dictSet, if_neg hne]
      exact h

theorem runEval_preserves (backends : List String)
    (behavior : String → String → Except String AttemptResult)
    (scorer : String → String → Rat) (N : Nat) :
    ∀ (c : List Entry) (idx : Nat) (st : OrchState) (s : String) (ev : MethodEvaluation),
    dlookup s st.results = some ev →
    dlookup s (runEval backends behavior scorer N c idx st).results = some ev := by
  intro c
  induction c with
  | nil => intro idx st s ev h; exact h
  | cons e0 rest ih =>
    intro idx st s ev h
    exact ih (idx + 1) _ s ev
      (processEntry_preserves backends behavior scorer N idx st e0 s ev h)

theorem runEval_covers (backends : List String)
    (behavior : String → String → Except String AttemptResult)
    (scorer : String → String → Rat) (N : Nat) :
    ∀ (c : List Entry) (idx : Nat) (st : OrchState), ∀ e ∈ c,
    (dlookup e.signature (runEval backends behavior scorer N c idx st).results).isSome
      = true := by
  intro c
  induction c with
  | nil => intro idx st e he; cases he
  | cons e0 rest ih =>
    intro idx st e he
    cases he with
    | head =>
      have hsome : ∃ ev, dlookup e0.signature
          (processEntry backends behavior scorer N idx st e0).results = some ev := by
        cases hl : dlookup e0.signature st.results with
        | some ev1 =>
          refine ⟨ev1, ?_⟩
          simp only [processEntry, hl]
        | none =>
          simp only [processEntry, hl]
          by_cases hc : (idx + 1) % N = 0
          · simp only [if_pos hc]
            rw [dlookup_dictSet, if_pos rfl]
            exact ⟨_, rfl⟩
          · simp only [if_neg hc]
            rw [dlookup_dictSet, if_pos rfl]
            exact ⟨_, rfl⟩
      obtain ⟨ev, hev⟩ := hsome
      have := runEval_preserves backends behavior scorer N rest (idx + 1) _
        e0.signature ev hev
      show (dlookup e0.signature (runEval backends behavior scorer N rest (idx + 1)
        (processEntry backends behavior scorer N idx st e0)).results).isSome = true
      rw [this]
      rfl
    | tail _ hmem =>
      exact ih (idx + 1) (processEntry backends behavior scorer N idx st e0) e hmem

theorem runEval_all_present (backends : List String)
    (behavior : String → String → Except String AttemptResult)
    (scorer : String → String → Rat) (N : Nat) :
    ∀ (c : List Entry) (idx : Nat) (st : OrchState),
    (∀ e ∈ c, (dlookup e.signature st.results).isSome = true) →
    runEval backends behavior scorer N c idx st = st := by
  intro c
  induction c with
  | nil => intro idx st _; rfl
  | cons e0 rest ih =>
    intro idx st hall
    have h0 := hall e0 (List.Mem.head _)
    have hpe : processEntry backends behavior scorer N idx st e0 = st := by
      cases hl : dlookup e0.signature st.results with
      | some ev => simp only [processEntry, hl]
      | none => rw [hl] at h0; exact absurd h0 (by simp)
    show runEval backends behavior scorer N rest (idx + 1)
      (processEntry backends behavior scorer N idx st e0) = st
    rw [hpe]
    exact ih (idx + 1) st (fun e he => hall e (List.Mem.tail _ he))

/-- C2: when every signature of the catalogue is unique, running
run_full_evaluation to completion, checkpointing its final ResultSet, and
re-running from that checkpoint with the same catalogue and backends skips
every signature (evaluate_method is invoked for no (signature, backend)
pair) and returns a final ResultSet identical to the checkpointed one. -/
theorem c2_resume_idempotent (backends : List String)
    (behavior : String → String → Except String AttemptResult)
    (scorer : String → String → Rat) (N : Nat) (catalogue : List Entry)
    (_hnodup : (catalogue.map Entry.signature).Nodup) :
    (run_full_evaluation backends behavior scorer N catalogue
        (some (.ok (run_full_evaluation backends behavior scorer N catalogue
          none).results))).queried = []
    ∧ (run_full_evaluation backends behavior scorer N catalogue
        (some (.ok (run_full_evaluation backends behavior scorer N catalogue
          none).results))).results
      = (run_full_evaluation backends behavior scorer N catalogue none).results := by
  have hcov : ∀ e ∈ catalogue,
      (dlookup e.signature (run_full_evaluation backends behavior scorer N catalogue
        none).results).isSome = true := by
    intro e he
    exact runEval_covers backends behavior scorer N catalogue 0
      { results := [], queried := [], checkpoints := 0, processed := 0 } e he
  have hid := runEval_all_present backends behavior scorer N catalogue 0
    { results := (run_full_evaluation backends behavior scorer N catalogue none).results,
      queried := [], checkpoints := 0, processed := 0 } hcov
  constructor
  · show (runEval backends behavior scorer N catalogue 0
      { results := (run_full_evaluation backends behavior scorer N catalogue none).results,
        queried := [], checkpoints := 0, processed := 0 }).queried = []
    rw [hid]
  · show (runEval backends behavior scorer N catalogue 0
      { results := (run_full_evaluation backends behavior scorer N catalogue none).results,
        queried := [], checkpoints := 0, processed := 0 }).results
      = (run_full_evaluation backends behavior scorer N catalogue none).results
    rw [hid]

/-- C2 witness: a one-entry catalogue run to completion and re-run from its
own final ResultSet queries no backend and keeps the ResultSet unchanged. -/
theorem c2_resume_idempotent_witness :
    (run_full_evaluation ["b"] (fun _ _ => .error "x") (fun _ _ => 0) 10
        ([⟨"m1", "c", JValue.null⟩] : List Entry)
        (some (.ok (run_full_evaluation ["b"] (fun _ _ => .error "x") (fun _ _ => 0) 10
          ([⟨"m1", "c", JValue.null⟩] : List Entry) none).results))).queried = []
    ∧ (run_full_evaluation ["b"] (fun _ _ => .error "x") (fun _ _ => 0) 10
        ([⟨"m1", "c", JValue.null⟩] : List Entry)
        (some (.ok (run_full_evaluation ["b"] (fun _ _ => .error "x") (fun _ _ => 0) 10
          ([⟨"m1", "c", JValue.null⟩] : List Entry) none).results))).results
      = (run_full_evaluation ["b"] (fun _ _ => .error "x") (fun _ _ => 0) 10
          ([⟨"m1", "c", JValue.null⟩] : List Entry) none).results :=
  c2_resume_idempotent ["b"] (fun _ _ => .error "x") (fun _ _ => 0) 10
    ([⟨"m1", "c", JValue.null⟩] : List Entry) (by decide)

theorem processBackend_lookup_isSome (scorer : String → String → Rat) (gtData : JValue)
    (ev : MethodEvaluation) (name : String) (beh : Except String AttemptResult)
    (b : String)
    (h : (dlookup b ev.llm_responses).isSome = true ∨ b = name) :
    (dlookup b (processBackend scorer gtData ev name beh).llm_responses).isSome = true := by
  have key : ∀ (l : List (String × StoredResponse)) (v : StoredResponse),
      (dlookup b l).isSome = true ∨ b = name →
      (dlookup b (dictSet l name v)).isSome = true := by
    intro l v hv
    rw [dlookup_dictSet]
    by_cases hbn : name = b
    · rw [if_pos hbn]
      rfl
    · rw [if_neg hbn]
      cases hv with
      | inl h1 => exact h1
      | inr h2 => exact absurd h2.symm hbn
  cases beh with
  | error e =>
    simp only [processBackend]
    exact key _ _ h
  | ok ar =>
    by_cases hs : ar.success = true
    · cases hp : ar.parsed_response with
      | some p =>
        simp only [processBackend, if_pos hs, hp]
        exact key _ _ h
      | none =>
        simp only [processBackend, if_pos hs, hp]
        refine key _ _ ?_
        cases h with
        | inl h1 => exact Or.inl (key _ _ (Or.inl h1))
        | inr h2 => exact Or.inr h2
    · simp only [processBackend, if_neg hs]
      exact key _ _ h

theorem foldl_backends_covers (scorer : String → String → Rat) (gtData : JValue)
    (behavior : String → String → Except String AttemptResult) (sig : String) :
    ∀ (bs : List String) (ev : MethodEvaluation) (b : String),
    ((dlookup b ev.llm_responses).isSome = true ∨ b ∈ bs) →
    (dlookup b (List.foldl
        (fun acc name => processBackend scorer gtData acc name (behavior name sig))
        ev bs).llm_responses).isSome = true := by
  intro bs
  induction bs with
  | nil =>
    intro ev b h
    cases h with
    | inl h1 => exact h1
    | inr h2 => cases h2
  | cons name rest ih =>
    intro ev b h
    simp only [List.foldl_cons]
    apply ih
    cases h with
    | inl h1 => exact Or.inl (processBackend_lookup_isSome _ _ _ _ _ _ (Or.inl h1))
    | inr h2 =>
      cases h2 with
      | head => exact Or.inl (processBackend_lookup_isSome _ _ _ _ _ _ (Or.inr rfl))
      | tail _ hmem => exact Or.inr hmem

theorem runEval_processes_all (backends : List String)
    (behavior : String → String → Except String AttemptResult)
    (scorer : String → String → Rat) (N : Nat) :
    ∀ (c : List Entry) (idx : Nat) (st : OrchState),
    (c.map Entry.signature).Nodup →
    (∀ e ∈ c, dlookup e.signature st.results = none) →
    ∀ e ∈ c, ∃ ev,
      dlookup e.signature (runEval backends behavior scorer N c idx st).results = some ev
      ∧ ∀ b ∈ backends, (dlookup b ev.llm_responses).isSome = true := by
  intro c
  induction c with
  | nil => intro idx st _ _ e he; cases he
  | cons e0 rest ih =>
    intro idx st hnodup hfresh e he
    rw [List.map_cons, List.nodup_cons] at hnodup
    obtain ⟨hnotin, hnodup2⟩ := hnodup
    have hl : dlookup e0.signature st.results = none := hfresh e0 (List.Mem.head _)
    cases he with
    | head =>
      refine ⟨List.foldl
        (fun acc name => processBackend scorer e0.data acc name (behavior name e0.signature))
        { category := e0.category, ground_truth := e0.data,
          llm_responses := [], similarities := [] } backends, ?_, ?_⟩
      · show dlookup e0.signature (runEval backends behavior scorer N rest (idx + 1)
            (processEntry backends behavior scorer N idx st e0)).results
          = some (List.foldl
            (fun acc name => processBackend scorer e0.data acc name (behavior name e0.signature))
            { category := e0.category, ground_truth := e0.data,
              llm_responses := [], similarities := [] } backends)
        apply runEval_preserves
        simp only [processEntry, hl]
        by_cases hc : (idx + 1) % N = 0
        · simp only [if_pos hc]
          rw [dlookup_dictSet, if_pos rfl]
        · simp only [if_neg hc]
          rw [dlookup_dictSet, if_pos rfl]
      · intro b hb
        exact foldl_backends_covers scorer e0.data behavior e0.signature backends _ b
          (Or.inr hb)
    | tail _ hmem =>
      have hfresh2 : ∀ e1 ∈ rest,
          dlookup e1.signature
            (processEntry backends behavior scorer N idx st e0).results = none := by
        intro e1 he1
        have hne : e0.signature ≠ e1.signature := by
          intro hx
          exact hnotin (by rw [hx]; exact List.mem_map_of_mem Entry.signature he1)
        simp only [processEntry, hl]
        by_cases hc : (idx + 1) % N = 0
        · simp only [if_pos hc]
          rw [dlookup_dictSet, if_neg hne]
          exact hfresh e1 (List.Mem.tail _ he1)
        · simp only [if_neg hc]
          rw [dlookup_dictSet, if_neg hne]
          exact hfresh e1 (List.Mem.tail _ he1)
      exact ih (idx + 1) _ hnodup2 hfresh2 e hmem

/-- C5: for every backend behavior whatsoever at each (method, backend) pair,
including an exception escaping the backend evaluation, a failure dict, or a
success dict lacking the parsed response, a fresh run over a catalogue with
unique signatures stores an entry for every catalogue signature and records
a response under every configured backend name inside it: no behavior aborts
the batch or suppresses later entries. -/
theorem c5_error_isolation (backends : List String)
    (behavior : String → String → Except String AttemptResult)
    (scorer : String → String → Rat) (N : Nat) (catalogue : List Entry)
    (hnodup : (catalogue.map Entry.signature).Nodup) :
    ∀ e ∈ catalogue, ∃ ev,
      dlookup e.signature
        (run_full_evaluation backends behavior scorer N catalogue none).results = some ev
      ∧ ∀ b ∈ backends, (dlookup b ev.llm_responses).isSome = true :=
  fun e he => runEval_processes_all backends behavior scorer N catalogue 0
    { results := [], queried := [], checkpoints := 0, processed := 0 }
    hnodup (fun _ _ => rfl) e he

/-- C5 witness: with one backend raising a connection error and another
returning a failure dict, the single catalogue entry still gets a ResultSet
entry with a recorded response for both backends. -/
theorem c5_error_isolation_witness :
    ∃ ev, dlookup "m1"
        (run_full_evaluation ["b1", "b2"]
          (fun name _ => if name = "b1" then .error "ConnectionError"
            else .ok (failRes "b2" "m1" "boom" 3))
          (fun _ _ => 0) 10 ([⟨"m1", "c", JValue.null⟩] : List Entry) none).results
      = some ev
    ∧ ∀ b ∈ ["b1", "b2"], (dlookup b ev.llm_responses).isSome = true :=
  c5_error_isolation ["b1", "b2"]
    (fun name _ => if name = "b1" then .error "ConnectionError"
      else .ok (failRes "b2" "m1" "boom" 3))
    (fun _ _ => 0) 10 ([⟨"m1", "c", JValue.null⟩] : List Entry) (by decide)
    ⟨"m1", "c", JValue.null⟩ (List.Mem.head _)

theorem runEval_noskip_counts (backends : List String)
    (behavior : String → String → Except String AttemptResult)
    (scorer : String → String → Rat) (N : Nat) (_hN : 1 ≤ N) :
    ∀ (c : List Entry) (idx : Nat) (st : OrchState),
    (c.map Entry.signature).Nodup →
    (∀ e ∈ c, dlookup e.signature st.results = none) →
    (runEval backends behavior scorer N c idx st).processed = st.processed + c.length
    ∧ (runEval backends behavior scorer N c idx st).checkpoints
        = st.checkpoints + ((idx + c.length) / N - idx / N) := by
  intro c
  induction c with
  | nil =>
    intro idx st _ _
    constructor
    · simp [runEval]
    · simp [runEval]
  | cons e0 rest ih =>
    intro idx st hnodup hfresh
    rw [List.map_cons, List.nodup_cons] at hnodup
    obtain ⟨hnotin, hnodup2⟩ := hnodup
    have hl : dlookup e0.signature st.results = none := hfresh e0 (List.Mem.head _)
    have hfresh2 : ∀ e1 ∈ rest,
        dlookup e1.signature
          (processEntry backends behavior scorer N idx st e0).results = none := by
      intro e1 he1
      have hne : e0.signature ≠ e1.signature := by
        intro hx
        exact hnotin (by rw [hx]; exact List.mem_map_of_mem Entry.signature he1)
      simp only [processEntry, hl]
      by_cases hc : (idx + 1) % N = 0
      · simp only [if_pos hc]
        rw [dlookup_dictSet, if_neg hne]
        exact hfresh e1 (List.Mem.tail _ he1)
      · simp only [if_neg hc]
        rw [dlookup_dictSet, if_neg hne]
        exact hfresh e1 (List.Mem.tail _ he1)
    obtain ⟨ihp, ihc⟩ := ih (idx + 1)
      (processEntry backends behavior scorer N idx st e0) hnodup2 hfresh2
    have hstp : (processEntry backends behavior scorer N idx st e0).processed
        = st.processed + 1 := by
      simp only [processEntry, hl]
      by_cases hc : (idx + 1) % N = 0
      · simp only [if_pos hc]
      · simp only [if_neg hc]
    have hstc : (processEntry backends behavior scorer N idx st e0).checkpoints
        = st.checkpoints + (if (idx + 1) % N = 0 then 1 else 0) := by
      simp only [processEntry, hl]
      by_cases hc : (idx + 1) % N = 0
      · simp only [if_pos hc]
      · simp only [if_neg hc]
        omega
    constructor
    · show (runEval backends behavior scorer N rest (idx + 1)
        (processEntry backends behavior scorer N idx st e0)).processed
          = st.processed + (e0 :: rest).length
      rw [ihp, hstp]
      simp only [List.length_cons]
      omega
    · show (runEval backends behavior scorer N rest (idx + 1)
        (processEntry backends behavior scorer N idx st e0)).checkpoints
          = st.checkpoints + ((idx + (e0 :: rest).length) / N - idx / N)
      rw [ihc, hstc]
      simp only [List.length_cons]
      have hL : idx + (rest.length + 1) = idx + 1 + rest.length := by omega
      rw [hL]
      have hsd := Nat.succ_div idx N
      have hmono : (idx + 1) / N ≤ (idx + 1 + rest.length) / N :=
        Nat.div_le_div_right (Nat.le_add_right _ _)
      by_cases hc : (idx + 1) % N = 0
      · have hdvd : N ∣ idx + 1 := Nat.dvd_iff_mod_eq_zero.mpr hc
        rw [if_pos hdvd] at hsd
        rw [if_pos hc]
        generalize hA : idx / N = A at hsd ⊢
        generalize hB : (idx + 1) / N = B at hsd hmono ⊢
        generalize hC : (idx + 1 + rest.length) / N = C at hmono ⊢
        omega
      · have hdvd : ¬ N ∣ idx + 1 := fun hd =>
          hc (Nat.dvd_iff_mod_eq_zero.mp hd)
        rw [if_neg hdvd] at hsd
        rw [if_neg hc]
        generalize hA : idx / N = A at hsd ⊢
        generalize hB : (idx + 1) / N = B at hsd hmono ⊢
        generalize hC : (idx + 1 + rest.length) / N = C at hmono ⊢
        omega

/-- A catalogue of 11 entries with distinct signatures s0 to s10. -/
def cat11 : List Entry :=
  (List.range 11).map
    (fun i => { signature := "s" ++ toString i, category := "c", data := JValue.null })

/-- A ResultSet entry standing for previously checkpointed work. -/
def priorEval : MethodEvaluation :=
  { category := "c", ground_truth := JValue.null, llm_responses := [], similarities := [] }

/-- C6 counterexample: the claim asserts a checkpoint write after every N
processed entries; but the skip path bypasses the checkpoint test, and the
test uses the catalogue position rather than the processed count.  Resuming
an 11-entry catalogue from a ResultSet containing only s9 (the entry at
1-based position 10) processes 10 entries yet performs 0 intermediate
checkpoint writes, where the claim requires one after the 10th processed
entry. -/
theorem c6_counterexample :
    (run_full_evaluation ["b"] (fun _ _ => .error "down") (fun _ _ => 0)
        PROGRESS_SAVE_INTERVAL cat11 (some (.ok [("s9", priorEval)]))).processed = 10
    ∧ (run_full_evaluation ["b"] (fun _ _ => .error "down") (fun _ _ => 0)
        PROGRESS_SAVE_INTERVAL cat11 (some (.ok [("s9", priorEval)]))).checkpoints = 0 :=
  ⟨rfl, rfl⟩

/-- C6 amended: the orchestrator checkpoints when the 1-based catalogue
position of a processed (non-skipped) entry is divisible by the save
interval N; for a fresh run over a catalogue with unique signatures this is
after every N processed entries, giving length / N intermediate writes
followed by one unconditional final write — in particular exactly 2
intermediate writes plus the final write for 25 entries at interval 10. -/
theorem c6_checkpoint_cadence (backends : List String)
    (behavior : String → String → Except String AttemptResult)
    (scorer : String → String → Rat) (N : Nat) (catalogue : List Entry)
    (hnodup : (catalogue.map Entry.signature).Nodup) (hN : 1 ≤ N) :
    (run_full_evaluation backends behavior scorer N catalogue none).processed
        = catalogue.length
    ∧ (run_full_evaluation backends behavior scorer N catalogue none).checkpoints
        = catalogue.length / N
    ∧ (run_full_evaluation backends behavior scorer N catalogue none).finalWrites = 1 := by
  obtain ⟨hp, hc⟩ := runEval_noskip_counts backends behavior scorer N hN catalogue 0
    { results := [], queried := [], checkpoints := 0, processed := 0 }
    hnodup (fun _ _ => rfl)
  refine ⟨?_, ?_, rfl⟩
  · show (runEval backends behavior scorer N catalogue 0
      { results := [], queried := [], checkpoints := 0, processed := 0 }).processed
        = catalogue.length
    rw [hp]
    simp
  · show (runEval backends behavior scorer N catalogue 0
      { results := [], queried := [], checkpoints := 0, processed := 0 }).checkpoints
        = catalogue.length / N
    rw [hc]
    simp

/-- A catalogue of 25 entries with distinct signatures s0 to s24. -/
def cat25 : List Entry :=
  (List.range 25).map
    (fun i => { signature := "s" ++ toString i, category := "c", data := JValue.null })

/-- C6 witness: a fresh run over 25 unique entries at the configured save
interval of 10 performs exactly 2 intermediate checkpoint writes and one
final write, processing all 25 entries. -/
theorem c6_checkpoint_cadence_witness :
    (run_full_evaluation ["b"] (fun _ _ => .error "down") (fun _ _ => 0)
        PROGRESS_SAVE_INTERVAL cat25 none).processed = 25
    ∧ (run_full_evaluation ["b"] (fun _ _ => .error "down") (fun _ _ => 0)
        PROGRESS_SAVE_INTERVAL cat25 none).checkpoints = 2
    ∧ (run_full_evaluation ["b"] (fun _ _ => .error "down") (fun _ _ => 0)
        PROGRESS_SAVE_INTERVAL cat25 none).finalWrites = 1 := by
  obtain ⟨h1, h2, h3⟩ := c6_checkpoint_cadence ["b"] (fun _ _ => .error "down")
    (fun _ _ => 0) PROGRESS_SAVE_INTERVAL cat25 (by decide) (by decide)
  exact ⟨h1.trans (by decide), h2.trans (by decide), h3⟩

end RQ1
